import Mathlib

/-
  Verification development for unit_to_srv.py, a converter from systemd
  unit files to dinit services.  The Python source is shallowly embedded:
  the global mutable state of the conversion loop (output_map, comments,
  is_pidfile, has_type, plus the stream of warnings) becomes an explicit
  record threaded through a step function; Python exceptions (NameError,
  ValueError) and os._exit become an Except error channel; Python floats
  are modelled as exact rationals (all quantities relevant to the claims
  are exactly representable).
-/

namespace UnitToSrv

/-- Values carried by a directive.  In the Python source the `value` field of
`key_value_struct` holds a string for most directives, but the timeout and
signal-resolution branches can store numbers (`TIME`, `knownsig.value`), so a
value is either a string or a number. -/
inductive Val where
  | s (str : String) : Val
  | n (num : ℚ) : Val
  deriving DecidableEq, Repr

/-- `key_value_struct` from the source: one key=value directive. -/
structure key_value_struct where
  key : String
  value : Val
  deriving DecidableEq, Repr

/-- Python runtime errors that the conversion loop can raise. -/
inductive PyError where
  | valueError : PyError
  | nameError : PyError
  deriving DecidableEq, Repr

/-- Ways the conversion can abort: an explicit `os._exit` or an uncaught
Python exception. -/
inductive Halt where
  | exit (code : Nat) : Halt
  | pyErr (e : PyError) : Halt
  deriving DecidableEq, Repr

/-- Warnings and sub-warnings printed through `warning`/`sub_warning`,
modelled structurally (constructor per message shape) so that theorems can
speak about which input data a warning references. -/
inductive Warn where
  | unknownKey (k : String) : Warn
  | cantParseTime (mag unitName : String) : Warn
  | notifyActivation : Warn
  | beforeDiff : Warn
  | afterDiff : Warn
  | groupNotSupported : Warn
  | subPrimaryGroup : Warn
  | killTryResolve (v : String) : Warn
  | resolvedTo (sig : Val) : Warn
  | cannotResolve (v : String) : Warn
  deriving DecidableEq, Repr

/-- `systemd_ref_map` from the source: the supported key vocabulary. -/
def systemd_ref_map : List String :=
  [ "Documentation",
    "Group",
    "Type",
    "Description",
    "Wants",
    "Requires",
    "Requisite",
    "BindsTo",
    "PartOf",
    "Upholds",
    "Before",
    "After",
    "OnSuccess",
    "StartLimitBurst",
    "StartLimitIntervalSec",
    "Alias",
    "WantedBy",
    "RequiredBy",
    "UpheldBy",
    "PIDFile",
    "ExecStart",
    "ExecStop",
    "TimeoutStartSec",
    "TimeoutStopSec",
    "TimeoutSec",
    "Restart",
    "EnvironmentFile",
    "User",
    "WorkingDirectory",
    "LimitCORE",
    "LimitDATA",
    "LimitNOFILE",
    "UtmpIdentifier",
    "KillSignal" ]

/-- Python `str.isnumeric` restricted to ASCII digits (all inputs relevant
here are ASCII): true iff the string is nonempty and all characters are
digits. -/
def isnumeric (s : String) : Bool :=
  s.length > 0 && s.toList.all Char.isDigit

/-- Python `str.isalpha` for the characters that can occur in time units;
includes the micro sign used by the `μs` unit. -/
def pyIsAlpha (c : Char) : Bool :=
  c.isAlpha || c = 'μ'

/-- Python `str.strip` on a character list: drop whitespace from both
ends.  (Implemented structurally so that concrete inputs evaluate inside
the kernel; the library `String.trim` does not reduce definitionally.) -/
def stripChars (l : List Char) : List Char :=
  ((l.dropWhile Char.isWhitespace).reverse.dropWhile Char.isWhitespace).reverse

/-- Python `str.strip`. -/
def pyStrip (s : String) : String :=
  ⟨stripChars s.data⟩

/-- Numeric value of a digit string. -/
def digitsToNat (l : List Char) : Nat :=
  l.foldl (fun acc c => acc * 10 + (c.toNat - 48)) 0

/-- Python `float(s)` as used in `parse_time`: the argument is always the
digit-only magnitude buffer, so it raises ValueError exactly on the empty
buffer and otherwise yields the (integral) numeric value. -/
def pyFloat (s : String) : Except PyError ℚ :=
  if isnumeric s then .ok ((digitsToNat s.data : Nat) : ℚ)
  else .error PyError.valueError

/-- The scanning state of the character loop in `parse_time`:
buffers `mem` (magnitude) and `what` (unit), the `letter` flag and the
accumulated `times` list. -/
structure ScanSt where
  mem : String
  what : String
  letter : Bool
  times : List (String × String)
  deriving DecidableEq, Repr

/-- One character of the `parse_time` scanning loop.  Note that on a digit
following letters the previous pair is flushed but `mem` is NOT reset (the
source only resets `what` and `letter`). -/
def scanStep (st : ScanSt) (ch : Char) : ScanSt :=
  if ch = ' ' then st
  else if ch.isDigit then
    if !st.letter then { st with mem := st.mem.push ch }
    else { st with times := st.times ++ [(pyStrip st.what, pyStrip st.mem)],
                   mem := st.mem.push ch,
                   what := "",
                   letter := false }
  else if pyIsAlpha ch then
    { st with what := st.what.push ch, letter := true }
  else st

/-- The whole character loop of `parse_time`. -/
def scanTime (time : String) : ScanSt :=
  time.toList.foldl scanStep ⟨"", "", false, []⟩

/-- The per-unit accumulation of the `match item[0]` statement in
`parse_time`: the recognized units and the operation each applies to the
(mis-chosen) magnitude.  `none` means the fall-through warning case. -/
def addFor (u : String) : Option (ℚ → ℚ) :=
  if u = "μs" ∨ u = "us" ∨ u = "usec" then some (fun x => x / 1000000)
  else if u = "ms" ∨ u = "msec" then some (fun x => x / 1000)
  else if u = "s" ∨ u = "sec" ∨ u = "second" ∨ u = "seconds" then some (fun x => x)
  else if u = "m" ∨ u = "min" ∨ u = "minute" ∨ u = "minutes" then some (fun x => x * 60)
  else if u = "h" ∨ u = "hr" ∨ u = "hour" ∨ u = "hours" then some (fun x => x * 3600)
  else if u = "d" ∨ u = "day" ∨ u = "days" then some (fun x => x * 86400)
  else if u = "w" ∨ u = "week" ∨ u = "weeks" then some (fun x => x * 604800)
  else if u = "M" ∨ u = "month" ∨ u = "months" then some (fun x => x * 2592000)
  else if u = "y" ∨ u = "year" ∨ u = "years" then some (fun x => x * 31536000)
  else none

/-- The `for item in times` summation loop of `parse_time`.  Faithful to the
source bug: every recognized unit converts `float(mem)` where `mem` is the
leftover global magnitude buffer after the scan, not `item[1]`. -/
def time_loop (finalMem : String) :
    List (String × String) → ℚ → List Warn → Except PyError (ℚ × List Warn)
  | [], sec, ws => .ok (sec, ws)
  | (u, m) :: rest, sec, ws =>
    match addFor u with
    | some f =>
      match pyFloat finalMem with
      | .ok x => time_loop finalMem rest (sec + f x) ws
      | .error e => .error e
    | none => time_loop finalMem rest sec (ws ++ [Warn.cantParseTime m u])

/-- `parse_time` from the source.  A purely numeric string is returned
unchanged (as the string itself, not a number); otherwise the input is
scanned into (unit, magnitude) pairs and summed.  ValueError propagates when
`float` is applied to an empty buffer. -/
def parse_time (time : String) : Except PyError (Val × List Warn) :=
  if isnumeric time then .ok (Val.s time, [])
  else
    let st := scanTime time
    let times := st.times ++ [(pyStrip st.what, pyStrip st.mem)]
    match time_loop st.mem times 0 [] with
    | .ok (sec, ws) => .ok (Val.n sec, ws)
    | .error e => .error e

/-- Python `str.split(" ")`: split on every single space character,
keeping empty fragments; the result is never the empty list. -/
def splitSpaceAux : List Char → List Char → List String
  | [], acc => [⟨acc.reverse⟩]
  | c :: rest, acc =>
    if c = ' ' then ⟨acc.reverse⟩ :: splitSpaceAux rest []
    else splitSpaceAux rest (c :: acc)

/-- Python `expr.value.split(" ")`. -/
def pySplitSpace (s : String) : List String :=
  splitSpaceAux s.data []

/-- Python `"Start" in key`: substring containment of `sub` in `s`. -/
def containsSub (s sub : String) : Bool :=
  (List.range (s.length + 1)).any fun i => ((s.data.drop i).take sub.length) = sub.data

/-- Python `str.removeprefix`: drop `p` from the front of `s` when it is
a prefix, otherwise return `s` unchanged. -/
def removePrefixStr (s p : String) : String :=
  if s.data.take p.length = p.data then ⟨s.data.drop p.length⟩ else s

/-- The members of `signal.Signals` on the Linux platform the converter
targets: canonical signal names with their numeric values (aliases such as
SIGIOT or SIGPOLL do not appear as distinct enumeration members). -/
def signal_Signals : List (String × Nat) :=
  [ ("SIGHUP", 1), ("SIGINT", 2), ("SIGQUIT", 3), ("SIGILL", 4),
    ("SIGTRAP", 5), ("SIGABRT", 6), ("SIGBUS", 7), ("SIGFPE", 8),
    ("SIGKILL", 9), ("SIGUSR1", 10), ("SIGSEGV", 11), ("SIGUSR2", 12),
    ("SIGPIPE", 13), ("SIGALRM", 14), ("SIGTERM", 15), ("SIGSTKFLT", 16),
    ("SIGCHLD", 17), ("SIGCONT", 18), ("SIGSTOP", 19), ("SIGTSTP", 20),
    ("SIGTTIN", 21), ("SIGTTOU", 22), ("SIGURG", 23), ("SIGXCPU", 24),
    ("SIGXFSZ", 25), ("SIGVTALRM", 26), ("SIGPROF", 27), ("SIGWINCH", 28),
    ("SIGIO", 29), ("SIGPWR", 30), ("SIGSYS", 31),
    ("SIGRTMIN", 34), ("SIGRTMAX", 64) ]

/-- The mutable conversion state of the main loop: the output directive
sequence, the comment lines, the collected warnings, and the two scalar
flags `is_pidfile` (0, 1, 2) and `has_type`. -/
structure ConvSt where
  output_map : List key_value_struct
  comments : List String
  warnings : List Warn
  is_pidfile : Nat
  has_type : Bool
  deriving DecidableEq, Repr

/-- The state at the start of the conversion loop. -/
def initSt : ConvSt :=
  { output_map := [], comments := [], warnings := [], is_pidfile := 0, has_type := false }

/-- Fan-out of a space-separated dependency list into one output directive
per element, with output key `outkey`. -/
def dep_out (outkey : String) (value : String) : List key_value_struct :=
  (pySplitSpace value).map (fun dep => ⟨outkey, Val.s dep⟩)

/-- The inner `match expr.value` of the `"Type"` case.  `dbus` calls
`os._exit(1)`; an unlisted value falls through with no output.  The
`has_type = True` assignment happens after this match, in `step`. -/
def type_step (st : ConvSt) (value : String) : Except Halt ConvSt :=
  if value = "simple" ∨ value = "exec" then
    .ok { st with output_map := st.output_map ++ [⟨"type", Val.s "process"⟩] }
  else if value = "forking" then
    .ok { st with output_map := st.output_map ++ [⟨"type", Val.s "bgprocess"⟩],
                  is_pidfile := 1 }
  else if value = "oneshot" then
    .ok { st with output_map := st.output_map ++ [⟨"type", Val.s "scripted"⟩] }
  else if value = "notify" then
    .ok { st with output_map := st.output_map ++ [⟨"type", Val.s "process"⟩],
                  warnings := st.warnings ++ [Warn.notifyActivation] }
  else if value = "dbus" then
    .error (Halt.exit 1)
  else
    .ok st

/-- The `"TimeoutStartSec" | "TimeoutStopSec" | "TimeoutSec"` case.
Faithful to the source: the combined-key test compares `expr.value`, not
`expr.key`, against the literal `"TimeoutSec"`. -/
def timeout_step (st : ConvSt) (key value : String) : Except Halt ConvSt :=
  match (if value = "infinity" then Except.ok (Val.n 0, ([] : List Warn))
         else parse_time value) with
  | .error e => .error (Halt.pyErr e)
  | .ok (TIME, ws) =>
    if value = "TimeoutSec" then
      .ok { st with warnings := st.warnings ++ ws,
                    output_map :=
                      st.output_map ++ [⟨"start-timeout", TIME⟩, ⟨"stop-timeout", TIME⟩] }
    else if containsSub key "Start" then
      .ok { st with warnings := st.warnings ++ ws,
                    output_map := st.output_map ++ [⟨"start-timeout", TIME⟩] }
    else
      .ok { st with warnings := st.warnings ++ ws,
                    output_map := st.output_map ++ [⟨"stop-timeout", TIME⟩] }

/-- The `"KillSignal"` case.  `SIG` holds the resolved short name or
numeric id (or stays empty); faithful to the source, the directive that is
appended carries `expr.value`, while `SIG` only appears in the
sub-warning. -/
def killsignal_step (st : ConvSt) (value : String) : Except Halt ConvSt :=
  if removePrefixStr value "SIG" = "HUP" ∨ removePrefixStr value "SIG" = "INT" ∨
     removePrefixStr value "SIG" = "QUIT" ∨ removePrefixStr value "SIG" = "KILL" ∨
     removePrefixStr value "SIG" = "USR1" ∨ removePrefixStr value "SIG" = "USR2" ∨
     removePrefixStr value "SIG" = "TERM" ∨ removePrefixStr value "SIG" = "CONT" ∨
     removePrefixStr value "SIG" = "STOP" ∨ removePrefixStr value "SIG" = "INFO" then
    .ok { st with
            warnings := st.warnings ++ [Warn.resolvedTo (Val.s (removePrefixStr value "SIG"))],
            output_map := st.output_map ++ [⟨"term-signal", Val.s value⟩] }
  else
    match List.lookup value signal_Signals with
    | some nv =>
      .ok { st with
              warnings := st.warnings ++ [Warn.killTryResolve value, Warn.resolvedTo (Val.n nv)],
              output_map := st.output_map ++ [⟨"term-signal", Val.s value⟩] }
    | none =>
      .ok { st with
              warnings := st.warnings ++ [Warn.killTryResolve value, Warn.cannotResolve value] }

/-- One iteration of the main conversion loop (`for expr in input_map`):
the membership test on `systemd_ref_map` followed by the `match expr.key`
dispatch.  The `"OnSuccess"` body references the undefined name `sdep`, so
reaching it raises NameError; `"Alias"` only writes auxiliary files and
touches no conversion state. -/
def step (st : ConvSt) (key value : String) : Except Halt ConvSt :=
  if ¬ key ∈ systemd_ref_map then
    .ok { st with warnings := st.warnings ++ [Warn.unknownKey key] }
  else if key = "Documentation" then
    .ok st
  else if key = "Description" then
    .ok { st with comments := st.comments ++ ["# Description: " ++ value ++ "\n"] }
  else if key = "Type" then
    match type_step st value with
    | .ok st2 => .ok { st2 with has_type := true }
    | .error h => .error h
  else if key = "ExecStart" then
    .ok { st with output_map := st.output_map ++ [⟨"command", Val.s value⟩] }
  else if key = "ExecStop" then
    .ok { st with output_map := st.output_map ++ [⟨"stop-command", Val.s value⟩] }
  else if key = "Wants" ∨ key = "UpHolds" then
    .ok { st with output_map := st.output_map ++ dep_out "waits-for" value }
  else if key = "Requires" ∨ key = "Requisite" ∨ key = "BindsTo" ∨ key = "PartOf" then
    .ok { st with output_map := st.output_map ++ dep_out "depends-on" value }
  else if key = "WantedBy" ∨ key = "RequiredBy" ∨ key = "UpheldBy" then
    .ok { st with output_map := st.output_map ++ dep_out "before" value }
  else if key = "Before" then
    .ok { st with output_map := st.output_map ++ dep_out "before" value,
                  warnings := st.warnings ++ [Warn.beforeDiff] }
  else if key = "After" then
    .ok { st with output_map := st.output_map ++ dep_out "after" value,
                  warnings := st.warnings ++ [Warn.afterDiff] }
  else if key = "Alias" then
    .ok st
  else if key = "OnSuccess" then
    .error (Halt.pyErr PyError.nameError)
  else if key = "StartLimitBurst" then
    .ok { st with output_map := st.output_map ++ [⟨"restart-limit-count", Val.s value⟩] }
  else if key = "StartLimitIntervalSec" then
    .ok { st with output_map := st.output_map ++ [⟨"restart-limit-interval", Val.s value⟩] }
  else if key = "PIDFile" then
    .ok { st with output_map := st.output_map ++ [⟨"pid-file", Val.s value⟩],
                  is_pidfile := 2 }
  else if key = "EnvironmentFile" then
    .ok { st with output_map := st.output_map ++ [⟨"env-file", Val.s value⟩] }
  else if key = "Restart" then
    if value = "true" ∨ value = "false" then
      .ok { st with output_map := st.output_map ++ [⟨"restart", Val.s value⟩] }
    else .ok st
  else if key = "TimeoutStartSec" ∨ key = "TimeoutStopSec" ∨ key = "TimeoutSec" then
    timeout_step st key value
  else if key = "User" then
    .ok { st with output_map := st.output_map ++ [⟨"run-as", Val.s value⟩] }
  else if key = "Group" then
    .ok { st with warnings := st.warnings ++ [Warn.groupNotSupported, Warn.subPrimaryGroup] }
  else if key = "WorkingDirectory" then
    .ok { st with output_map := st.output_map ++ [⟨"working-dir", Val.s value⟩] }
  else if key = "LimitCORE" then
    .ok { st with output_map := st.output_map ++ [⟨"rlimit-core", Val.s value⟩] }
  else if key = "LimitNOFILE" then
    .ok { st with output_map := st.output_map ++ [⟨"rlimit-nofile", Val.s value⟩] }
  else if key = "LimitDATA" then
    .ok { st with output_map := st.output_map ++ [⟨"rlimit-data", Val.s value⟩] }
  else if key = "UtmpIdentifier" then
    .ok { st with output_map := st.output_map ++ [⟨"inittab-line", Val.s value⟩] }
  else if key = "KillSignal" then
    killsignal_step st value
  else
    .ok st

/-- The whole main loop over the parsed input sequence. -/
def run_map : List (String × String) → ConvSt → Except Halt ConvSt
  | [], st => .ok st
  | e :: rest, st =>
    match step st e.1 e.2 with
    | .ok st2 => run_map rest st2
    | .error h => .error h

/-- The conversion pass: the main loop followed by the default-type
fallback (`if not has_type`). -/
def convert (input : List (String × String)) : Except Halt ConvSt :=
  match run_map input initSt with
  | .ok st =>
    if ¬ st.has_type then
      .ok { st with output_map := st.output_map ++ [⟨"type", Val.s "process"⟩] }
    else .ok st
  | .error h => .error h

/-- The missing-pidfile caveat comment is written to the output file
exactly when the final state has `is_pidfile == 1`. -/
def missing_pidfile_caveat (st : ConvSt) : Bool :=
  st.is_pidfile == 1

/-- The sub-sequence of type directives of an output sequence. -/
def filterType (l : List key_value_struct) : List key_value_struct :=
  l.filter (fun e => e.key = "type")

/-- Decidable equality of `Except` results, needed to settle concrete
evaluations of the embedded functions by `decide`. -/
instance instDecEqExcept {ε α : Type} [DecidableEq ε] [DecidableEq α] :
    DecidableEq (Except ε α) := fun a b =>
  match a, b with
  | .ok x, .ok y =>
    match decEq x y with
    | isTrue h => isTrue (by rw [h])
    | isFalse h => isFalse (by intro hc; cases hc; exact h rfl)
  | .error x, .error y =>
    match decEq x y with
    | isTrue h => isTrue (by rw [h])
    | isFalse h => isFalse (by intro hc; cases hc; exact h rfl)
  | .ok _, .error _ => isFalse (by intro hc; cases hc)
  | .error _, .ok _ => isFalse (by intro hc; cases hc)

/-- The type directives that one `Type` value causes the mapper to append;
mirrors the branch structure of `type_step`. -/
def typeEmitVal (v : String) : List key_value_struct :=
  if v = "simple" ∨ v = "exec" then [⟨"type", Val.s "process"⟩]
  else if v = "forking" then [⟨"type", Val.s "bgprocess"⟩]
  else if v = "oneshot" then [⟨"type", Val.s "scripted"⟩]
  else if v = "notify" then [⟨"type", Val.s "process"⟩]
  else []

/-- The type directives one input entry contributes to the output. -/
def typeEmitOne (e : String × String) : List key_value_struct :=
  if e.1 = "Type" then typeEmitVal e.2 else []

/-- The type directives a whole input sequence contributes. -/
def typeOut (l : List (String × String)) : List key_value_struct :=
  (l.map typeEmitOne).flatten

theorem filterType_append (l1 l2 : List key_value_struct) :
    filterType (l1 ++ l2) = filterType l1 ++ filterType l2 := by
  simp [filterType, List.filter_append]

theorem filterType_typeEmitVal (v : String) :
    filterType (typeEmitVal v) = typeEmitVal v := by
  unfold typeEmitVal
  repeat' split
  all_goals simp [filterType]

theorem filterType_dep_out (outkey value : String) (h : outkey ≠ "type") :
    filterType (dep_out outkey value) = [] := by
  unfold filterType dep_out
  induction pySplitSpace value with
  | nil => simp
  | cons d rest ih => simp [List.filter, h, ih]

/-- `type_step` preserves `has_type` and appends exactly `typeEmitVal`. -/
theorem type_step_spec (st : ConvSt) (v : String) (st2 : ConvSt)
    (h : type_step st v = .ok st2) :
    st2.has_type = st.has_type ∧ st2.output_map = st.output_map ++ typeEmitVal v := by
  unfold type_step at h
  unfold typeEmitVal
  repeat' split at h
  all_goals (try exact Except.noConfusion h)
  all_goals (try (injection h with h2; subst h2))
  all_goals simp_all

/-- `timeout_step` never touches `has_type` and never appends a type
directive. -/
theorem timeout_step_spec (st : ConvSt) (k v : String) (st2 : ConvSt)
    (h : timeout_step st k v = .ok st2) :
    st2.has_type = st.has_type ∧
    filterType st2.output_map = filterType st.output_map := by
  unfold timeout_step at h
  repeat' split at h
  all_goals (try exact Except.noConfusion h)
  all_goals (try (injection h with h2; subst h2))
  all_goals simp [filterType, List.filter_append, List.filter_cons]

/-- `killsignal_step` never touches `has_type` and never appends a type
directive. -/
theorem killsignal_step_spec (st : ConvSt) (v : String) (st2 : ConvSt)
    (h : killsignal_step st v = .ok st2) :
    st2.has_type = st.has_type ∧
    filterType st2.output_map = filterType st.output_map := by
  unfold killsignal_step at h
  repeat' split at h
  all_goals (try (injection h with h2; subst h2))
  all_goals simp [filterType, List.filter_append, List.filter_cons]

theorem filterType_dep_out_waits (v : String) :
    filterType (dep_out "waits-for" v) = [] :=
  filterType_dep_out _ _ (by decide)

theorem filterType_dep_out_depends (v : String) :
    filterType (dep_out "depends-on" v) = [] :=
  filterType_dep_out _ _ (by decide)

theorem filterType_dep_out_before (v : String) :
    filterType (dep_out "before" v) = [] :=
  filterType_dep_out _ _ (by decide)

theorem filterType_dep_out_after (v : String) :
    filterType (dep_out "after" v) = [] :=
  filterType_dep_out _ _ (by decide)

theorem step_Documentation (st : ConvSt) (v : String) :
    step st "Documentation" v = .ok st := rfl

theorem step_Group (st : ConvSt) (v : String) :
    step st "Group" v =
      .ok { st with warnings := st.warnings ++ [Warn.groupNotSupported, Warn.subPrimaryGroup] } :=
  rfl

theorem step_Type (st : ConvSt) (v : String) :
    step st "Type" v =
      match type_step st v with
      | .ok st2 => .ok { st2 with has_type := true }
      | .error h => .error h := rfl

theorem step_Description (st : ConvSt) (v : String) :
    step st "Description" v =
      .ok { st with comments := st.comments ++ ["# Description: " ++ v ++ "\n"] } := rfl

theorem step_Wants (st : ConvSt) (v : String) :
    step st "Wants" v =
      .ok { st with output_map := st.output_map ++ dep_out "waits-for" v } := rfl

theorem step_Requires (st : ConvSt) (v : String) :
    step st "Requires" v =
      .ok { st with output_map := st.output_map ++ dep_out "depends-on" v } := rfl

theorem step_Requisite (st : ConvSt) (v : String) :
    step st "Requisite" v =
      .ok { st with output_map := st.output_map ++ dep_out "depends-on" v } := rfl

theorem step_BindsTo (st : ConvSt) (v : String) :
    step st "BindsTo" v =
      .ok { st with output_map := st.output_map ++ dep_out "depends-on" v } := rfl

theorem step_PartOf (st : ConvSt) (v : String) :
    step st "PartOf" v =
      .ok { st with output_map := st.output_map ++ dep_out "depends-on" v } := rfl

theorem step_Upholds (st : ConvSt) (v : String) :
    step st "Upholds" v = .ok st := rfl

theorem step_Before (st : ConvSt) (v : String) :
    step st "Before" v =
      .ok { st with output_map := st.output_map ++ dep_out "before" v,
                    warnings := st.warnings ++ [Warn.beforeDiff] } := rfl

theorem step_After (st : ConvSt) (v : String) :
    step st "After" v =
      .ok { st with output_map := st.output_map ++ dep_out "after" v,
                    warnings := st.warnings ++ [Warn.afterDiff] } := rfl

theorem step_OnSuccess (st : ConvSt) (v : String) :
    step st "OnSuccess" v = .error (Halt.pyErr PyError.nameError) := rfl

theorem step_StartLimitBurst (st : ConvSt) (v : String) :
    step st "StartLimitBurst" v =
      .ok { st with output_map := st.output_map ++ [⟨"restart-limit-count", Val.s v⟩] } := rfl

theorem step_StartLimitIntervalSec (st : ConvSt) (v : String) :
    step st "StartLimitIntervalSec" v =
      .ok { st with output_map := st.output_map ++ [⟨"restart-limit-interval", Val.s v⟩] } :=
  rfl

theorem step_Alias (st : ConvSt) (v : String) :
    step st "Alias" v = .ok st := rfl

theorem step_WantedBy (st : ConvSt) (v : String) :
    step st "WantedBy" v =
      .ok { st with output_map := st.output_map ++ dep_out "before" v } := rfl

theorem step_RequiredBy (st : ConvSt) (v : String) :
    step st "RequiredBy" v =
      .ok { st with output_map := st.output_map ++ dep_out "before" v } := rfl

theorem step_UpheldBy (st : ConvSt) (v : String) :
    step st "UpheldBy" v =
      .ok { st with output_map := st.output_map ++ dep_out "before" v } := rfl

theorem step_PIDFile (st : ConvSt) (v : String) :
    step st "PIDFile" v =
      .ok { st with output_map := st.output_map ++ [⟨"pid-file", Val.s v⟩],
                    is_pidfile := 2 } := rfl

theorem step_ExecStart (st : ConvSt) (v : String) :
    step st "ExecStart" v =
      .ok { st with output_map := st.output_map ++ [⟨"command", Val.s v⟩] } := rfl

theorem step_ExecStop (st : ConvSt) (v : String) :
    step st "ExecStop" v =
      .ok { st with output_map := st.output_map ++ [⟨"stop-command", Val.s v⟩] } := rfl

theorem step_TimeoutStartSec (st : ConvSt) (v : String) :
    step st "TimeoutStartSec" v = timeout_step st "TimeoutStartSec" v := rfl

theorem step_TimeoutStopSec (st : ConvSt) (v : String) :
    step st "TimeoutStopSec" v = timeout_step st "TimeoutStopSec" v := rfl

theorem step_TimeoutSec (st : ConvSt) (v : String) :
    step st "TimeoutSec" v = timeout_step st "TimeoutSec" v := rfl

theorem step_Restart (st : ConvSt) (v : String) :
    step st "Restart" v =
      if v = "true" ∨ v = "false" then
        .ok { st with output_map := st.output_map ++ [⟨"restart", Val.s v⟩] }
      else .ok st := rfl

theorem step_EnvironmentFile (st : ConvSt) (v : String) :
    step st "EnvironmentFile" v =
      .ok { st with output_map := st.output_map ++ [⟨"env-file", Val.s v⟩] } := rfl

theorem step_User (st : ConvSt) (v : String) :
    step st "User" v =
      .ok { st with output_map := st.output_map ++ [⟨"run-as", Val.s v⟩] } := rfl

theorem step_WorkingDirectory (st : ConvSt) (v : String) :
    step st "WorkingDirectory" v =
      .ok { st with output_map := st.output_map ++ [⟨"working-dir", Val.s v⟩] } := rfl

theorem step_LimitCORE (st : ConvSt) (v : String) :
    step st "LimitCORE" v =
      .ok { st with output_map := st.output_map ++ [⟨"rlimit-core", Val.s v⟩] } := rfl

theorem step_LimitNOFILE (st : ConvSt) (v : String) :
    step st "LimitNOFILE" v =
      .ok { st with output_map := st.output_map ++ [⟨"rlimit-nofile", Val.s v⟩] } := rfl

theorem step_LimitDATA (st : ConvSt) (v : String) :
    step st "LimitDATA" v =
      .ok { st with output_map := st.output_map ++ [⟨"rlimit-data", Val.s v⟩] } := rfl

theorem step_UtmpIdentifier (st : ConvSt) (v : String) :
    step st "UtmpIdentifier" v =
      .ok { st with output_map := st.output_map ++ [⟨"inittab-line", Val.s v⟩] } := rfl

theorem step_KillSignal (st : ConvSt) (v : String) :
    step st "KillSignal" v = killsignal_step st v := rfl

theorem step_unknown (st : ConvSt) (k v : String) (hmem : ¬ k ∈ systemd_ref_map) :
    step st k v = .ok { st with warnings := st.warnings ++ [Warn.unknownKey k] } := by
  unfold step
  rw [if_pos hmem]

/-- One loop iteration tracks the type state exactly: `has_type` flips to
true exactly on a (completing) `Type` entry, and the type directives that
the iteration appends to the output are exactly `typeEmitOne`. -/
theorem step_spec (st : ConvSt) (k v : String) (st2 : ConvSt)
    (h : step st k v = .ok st2) :
    st2.has_type = (st.has_type || decide (k = "Type")) ∧
    filterType st2.output_map = filterType st.output_map ++ typeEmitOne (k, v) := by
  by_cases hmem : k ∈ systemd_ref_map
  · simp only [systemd_ref_map, List.mem_cons, List.not_mem_nil, or_false] at hmem
    rcases hmem with rfl|rfl|rfl|rfl|rfl|rfl|rfl|rfl|rfl|rfl|rfl|rfl|rfl|rfl|rfl|rfl|rfl|
      rfl|rfl|rfl|rfl|rfl|rfl|rfl|rfl|rfl|rfl|rfl|rfl|rfl|rfl|rfl|rfl|rfl
    -- Documentation
    · rw [step_Documentation] at h
      have h2 := Except.ok.inj h; subst h2
      simp [typeEmitOne, filterType]
    -- Group
    · rw [step_Group] at h
      have h2 := Except.ok.inj h; subst h2
      simp [typeEmitOne, filterType]
    -- Type
    · rw [step_Type] at h
      cases hts : type_step st v with
      | error e => rw [hts] at h; exact Except.noConfusion h
      | ok stm =>
        rw [hts] at h
        have h2 := Except.ok.inj h; subst h2
        obtain ⟨t1, t2⟩ := type_step_spec st v stm hts
        constructor
        · simp
        · simp [t2, filterType_append, filterType_typeEmitVal, typeEmitOne]
    -- Description
    · rw [step_Description] at h
      have h2 := Except.ok.inj h; subst h2
      simp [typeEmitOne, filterType]
    -- Wants
    · rw [step_Wants] at h
      have h2 := Except.ok.inj h; subst h2
      simp [typeEmitOne, filterType_append, filterType_dep_out_waits]
    -- Requires
    · rw [step_Requires] at h
      have h2 := Except.ok.inj h; subst h2
      simp [typeEmitOne, filterType_append, filterType_dep_out_depends]
    -- Requisite
    · rw [step_Requisite] at h
      have h2 := Except.ok.inj h; subst h2
      simp [typeEmitOne, filterType_append, filterType_dep_out_depends]
    -- BindsTo
    · rw [step_BindsTo] at h
      have h2 := Except.ok.inj h; subst h2
      simp [typeEmitOne, filterType_append, filterType_dep_out_depends]
    -- PartOf
    · rw [step_PartOf] at h
      have h2 := Except.ok.inj h; subst h2
      simp [typeEmitOne, filterType_append, filterType_dep_out_depends]
    -- Upholds
    · rw [step_Upholds] at h
      have h2 := Except.ok.inj h; subst h2
      simp [typeEmitOne, filterType]
    -- Before
    · rw [step_Before] at h
      have h2 := Except.ok.inj h; subst h2
      simp [typeEmitOne, filterType_append, filterType_dep_out_before]
    -- After
    · rw [step_After] at h
      have h2 := Except.ok.inj h; subst h2
      simp [typeEmitOne, filterType_append, filterType_dep_out_after]
    -- OnSuccess
    · rw [step_OnSuccess] at h
      exact Except.noConfusion h
    -- StartLimitBurst
    · rw [step_StartLimitBurst] at h
      have h2 := Except.ok.inj h; subst h2
      simp [typeEmitOne, filterType, List.filter_append, List.filter_cons]
    -- StartLimitIntervalSec
    · rw [step_StartLimitIntervalSec] at h
      have h2 := Except.ok.inj h; subst h2
      simp [typeEmitOne, filterType, List.filter_append, List.filter_cons]
    -- Alias
    · rw [step_Alias] at h
      have h2 := Except.ok.inj h; subst h2
      simp [typeEmitOne, filterType]
    -- WantedBy
    · rw [step_WantedBy] at h
      have h2 := Except.ok.inj h; subst h2
      simp [typeEmitOne, filterType_append, filterType_dep_out_before]
    -- RequiredBy
    · rw [step_RequiredBy] at h
      have h2 := Except.ok.inj h; subst h2
      simp [typeEmitOne, filterType_append, filterType_dep_out_before]
    -- UpheldBy
    · rw [step_UpheldBy] at h
      have h2 := Except.ok.inj h; subst h2
      simp [typeEmitOne, filterType_append, filterType_dep_out_before]
    -- PIDFile
    · rw [step_PIDFile] at h
      have h2 := Except.ok.inj h; subst h2
      simp [typeEmitOne, filterType, List.filter_append, List.filter_cons]
    -- ExecStart
    · rw [step_ExecStart] at h
      have h2 := Except.ok.inj h; subst h2
      simp [typeEmitOne, filterType, List.filter_append, List.filter_cons]
    -- ExecStop
    · rw [step_ExecStop] at h
      have h2 := Except.ok.inj h; subst h2
      simp [typeEmitOne, filterType, List.filter_append, List.filter_cons]
    -- TimeoutStartSec
    · rw [step_TimeoutStartSec] at h
      obtain ⟨t1, t2⟩ := timeout_step_spec st "TimeoutStartSec" v st2 h
      rw [t1, t2]
      simp [typeEmitOne]
    -- TimeoutStopSec
    · rw [step_TimeoutStopSec] at h
      obtain ⟨t1, t2⟩ := timeout_step_spec st "TimeoutStopSec" v st2 h
      rw [t1, t2]
      simp [typeEmitOne]
    -- TimeoutSec
    · rw [step_TimeoutSec] at h
      obtain ⟨t1, t2⟩ := timeout_step_spec st "TimeoutSec" v st2 h
      rw [t1, t2]
      simp [typeEmitOne]
    -- Restart
    · rw [step_Restart] at h
      split at h
      · have h2 := Except.ok.inj h; subst h2
        simp [typeEmitOne, filterType, List.filter_append, List.filter_cons]
      · have h2 := Except.ok.inj h; subst h2
        simp [typeEmitOne, filterType]
    -- EnvironmentFile
    · rw [step_EnvironmentFile] at h
      have h2 := Except.ok.inj h; subst h2
      simp [typeEmitOne, filterType, List.filter_append, List.filter_cons]
    -- User
    · rw [step_User] at h
      have h2 := Except.ok.inj h; subst h2
      simp [typeEmitOne, filterType, List.filter_append, List.filter_cons]
    -- WorkingDirectory
    · rw [step_WorkingDirectory] at h
      have h2 := Except.ok.inj h; subst h2
      simp [typeEmitOne, filterType, List.filter_append, List.filter_cons]
    -- LimitCORE
    · rw [step_LimitCORE] at h
      have h2 := Except.ok.inj h; subst h2
      simp [typeEmitOne, filterType, List.filter_append, List.filter_cons]
    -- LimitDATA
    · rw [step_LimitDATA] at h
      have h2 := Except.ok.inj h; subst h2
      simp [typeEmitOne, filterType, List.filter_append, List.filter_cons]
    -- LimitNOFILE
    · rw [step_LimitNOFILE] at h
      have h2 := Except.ok.inj h; subst h2
      simp [typeEmitOne, filterType, List.filter_append, List.filter_cons]
    -- UtmpIdentifier
    · rw [step_UtmpIdentifier] at h
      have h2 := Except.ok.inj h; subst h2
      simp [typeEmitOne, filterType, List.filter_append, List.filter_cons]
    -- KillSignal
    · rw [step_KillSignal] at h
      obtain ⟨t1, t2⟩ := killsignal_step_spec st v st2 h
      rw [t1, t2]
      simp [typeEmitOne]
  · rw [step_unknown st k v hmem] at h
    have h2 := Except.ok.inj h; subst h2
    have hk : ¬ (k = "Type") := fun hh => hmem (by rw [hh]; decide)
    simp [typeEmitOne, hk, filterType]

theorem typeOut_cons (e : String × String) (l : List (String × String)) :
    typeOut (e :: l) = typeEmitOne e ++ typeOut l := by
  simp [typeOut]

theorem typeOut_append (l1 l2 : List (String × String)) :
    typeOut (l1 ++ l2) = typeOut l1 ++ typeOut l2 := by
  simp [typeOut]

theorem typeOut_eq_nil (l : List (String × String)) (h : ∀ e ∈ l, e.1 ≠ "Type") :
    typeOut l = [] := by
  induction l with
  | nil => rfl
  | cons e rest ih =>
    rw [typeOut_cons, ih (fun x hx => h x (List.mem_cons_of_mem e hx))]
    have he : e.1 ≠ "Type" := h e (List.mem_cons_self e rest)
    simp [typeEmitOne, he]

/-- The main loop tracks the type state exactly: after a completing run,
`has_type` is true iff it started true or some entry has key `Type`, and
the type directives appended to the output are exactly `typeOut`. -/
theorem run_map_spec (l : List (String × String)) (st0 st1 : ConvSt)
    (h : run_map l st0 = .ok st1) :
    st1.has_type = (st0.has_type || l.any (fun e => decide (e.1 = "Type"))) ∧
    filterType st1.output_map = filterType st0.output_map ++ typeOut l := by
  induction l generalizing st0 with
  | nil =>
    unfold run_map at h
    have h2 := Except.ok.inj h; subst h2
    simp [typeOut]
  | cons e rest ih =>
    unfold run_map at h
    split at h
    · rename_i stm hs
      obtain ⟨s1, s2⟩ := step_spec st0 e.1 e.2 stm hs
      obtain ⟨r1, r2⟩ := ih stm h
      constructor
      · rw [r1, s1]
        simp [Bool.or_assoc]
      · rw [r2, s2, typeOut_cons]
        simp [List.append_assoc]
    · exact Except.noConfusion h

/-- C1: the claim says `parse_time` sums magnitude times unit factor over
the (magnitude, unit) pairs, with `parse_time "5min 20sec" = 320` and
`parse_time "5min20sec" = 320`.  The code disagrees: the magnitude buffer
`mem` is never reset between pairs and the summation loop multiplies the
unit factors by the leftover final buffer (`float(mem)`) instead of each
pair's own magnitude (`item[1]`), so both inputs evaluate to
520 * 60 + 520 = 31720, not 320. -/
theorem C1_parse_time_eval :
    parse_time "5min 20sec" = .ok (Val.n 31720, []) ∧
    parse_time "5min20sec" = .ok (Val.n 31720, []) ∧
    (31720 : ℚ) ≠ 320 := by
  refine ⟨?_, ?_, by norm_num⟩
  · have h : parse_time "5min 20sec" =
        .ok (Val.n ((0 : ℚ) + ((520 : ℕ) : ℚ) * 60 + ((520 : ℕ) : ℚ)), []) := rfl
    rw [h]; norm_num
  · have h : parse_time "5min20sec" =
        .ok (Val.n ((0 : ℚ) + ((520 : ℕ) : ℚ) * 60 + ((520 : ℕ) : ℚ)), []) := rfl
    rw [h]; norm_num

/-- C2: the claim says the combined-timeout key `TimeoutSec` appends both a
start-timeout and a stop-timeout directive.  The code compares
`expr.value`, not `expr.key`, against `"TimeoutSec"`, so a `TimeoutSec`
entry takes the final `else` branch and emits only the stop-timeout
directive; the start- and stop-specific keys do behave as claimed. -/
theorem C2_timeoutsec_emits_only_stop :
    step initSt "TimeoutSec" "90" =
      .ok { initSt with output_map := [⟨"stop-timeout", Val.s "90"⟩] } ∧
    step initSt "TimeoutStartSec" "90" =
      .ok { initSt with output_map := [⟨"start-timeout", Val.s "90"⟩] } ∧
    step initSt "TimeoutStopSec" "90" =
      .ok { initSt with output_map := [⟨"stop-timeout", Val.s "90"⟩] } :=
  ⟨by decide, by decide, by decide⟩

/-- C3 counterexample: the claim says a `User` directive with value `u`
combined with a `Group` directive with value `g` yields one run-as
directive with composite value `u:g`.  On input
`[User=alice, Group=staff]` the code emits run-as `alice`, and no
directive with value `alice:staff` exists anywhere in the output. -/
theorem C3_no_group_combination_cex :
    (convert [("User", "alice"), ("Group", "staff")]).map
        (fun st => st.output_map.filter (fun e => e.key = "run-as")) =
      .ok [⟨"run-as", Val.s "alice"⟩] ∧
    (convert [("User", "alice"), ("Group", "staff")]).map
        (fun st => decide (⟨"run-as", Val.s "alice:staff"⟩ ∈ st.output_map)) =
      .ok false :=
  ⟨by decide, by decide⟩

/-- C3 amended: for every user value `u` and group value `g`, in either
relative order of the `User` and `Group` directives, the mapper emits
exactly one run-as directive and it carries `u` alone (never `u:g`); the
`Group` directive only produces warnings. -/
theorem C3_run_as_user_alone (u g : String) :
    (convert [("User", u), ("Group", g)]).map
        (fun st => st.output_map.filter (fun e => e.key = "run-as")) =
      .ok [⟨"run-as", Val.s u⟩] ∧
    (convert [("Group", g), ("User", u)]).map
        (fun st => st.output_map.filter (fun e => e.key = "run-as")) =
      .ok [⟨"run-as", Val.s u⟩] := by
  constructor
  · simp [convert, run_map, step_User, step_Group, initSt, Except.map,
          List.filter_cons]
  · simp [convert, run_map, step_User, step_Group, initSt, Except.map,
          List.filter_cons]

/-- C4: the claim says that with no `Type=dbus` entry the pass processes
every entry to completion, anomalies producing only warnings.  The
`OnSuccess` handler references the undefined name `sdep`, so an input
containing an `OnSuccess` entry (and no dbus type at all) aborts the whole
pass with a NameError instead of completing. -/
theorem C4_onsuccess_nameerror_aborts :
    convert [("OnSuccess", "b.service")] = .error (Halt.pyErr PyError.nameError) ∧
    (∀ e ∈ [("OnSuccess", "b.service")], ¬ (e.1 = "Type" ∧ e.2 = "dbus")) :=
  ⟨by decide, by decide⟩

/-- C5: the claim says `pidfile_status` is never downgraded, so a forking
type plus a `PIDFile` directive in any order suppresses the caveat.  The
code sets `is_pidfile = 1` unconditionally on `Type=forking`: with
`PIDFile` first the status is downgraded 2 → 1 and the final output does
include the missing-pidfile caveat. -/
theorem C5_pidfile_status_downgraded :
    (run_map [("PIDFile", "/run/daemon.pid")] initSt).map
        (fun st => st.is_pidfile) = .ok 2 ∧
    (run_map [("PIDFile", "/run/daemon.pid"), ("Type", "forking")] initSt).map
        (fun st => st.is_pidfile) = .ok 1 ∧
    (convert [("PIDFile", "/run/daemon.pid"), ("Type", "forking")]).map
        missing_pidfile_caveat = .ok true :=
  ⟨by decide, by decide, by decide⟩

/-- C6: the claim says a whitelisted `KillSignal` value is emitted as the
stripped short name.  The code computes the stripped name into `SIG` (and
reports it in the sub-warning) but appends `expr.value`: for
`KillSignal=SIGHUP` the emitted term-signal directive carries `SIGHUP`,
not the stripped `HUP`. -/
theorem C6_killsignal_emits_original_value :
    step initSt "KillSignal" "SIGHUP" =
      .ok { initSt with warnings := [Warn.resolvedTo (Val.s "HUP")],
                        output_map := [⟨"term-signal", Val.s "SIGHUP"⟩] } ∧
    Val.s "SIGHUP" ≠ Val.s "HUP" :=
  ⟨by decide, by decide⟩

/-- C7 counterexample: the claim says a purely numeric input is returned
as a number, with `parse_time "90"` equal to the number 90.  The code
returns the original string: `parse_time "90"` yields the string `"90"`,
which is not the numeric value 90. -/
theorem C7_numeric_string_not_number_cex :
    parse_time "90" = .ok (Val.s "90", []) ∧ Val.s "90" ≠ Val.n 90 :=
  ⟨by decide, by decide⟩

/-- C7 amended: for every purely numeric input string, `parse_time`
returns that string itself, unchanged and not re-parsed (a string value,
not a number), with no warnings. -/
theorem C7_numeric_passthrough (s : String) (h : isnumeric s = true) :
    parse_time s = .ok (Val.s s, []) := by
  unfold parse_time
  rw [if_pos h]

/-- Witness for C7 amended at the concrete input "90". -/
theorem C7_numeric_passthrough_witness :
    isnumeric "90" = true ∧ parse_time "90" = .ok (Val.s "90", []) :=
  ⟨by decide, C7_numeric_passthrough "90" (by decide)⟩

/-- C8: for every input sequence with no `Type` directive whose conversion
pass completes, the final output contains exactly one type directive, it
has value "process", and it is the last directive (appended by the
post-pass fallback). -/
theorem C8_default_type_fallback (input : List (String × String)) (st : ConvSt)
    (hok : convert input = .ok st) (hnt : ∀ e ∈ input, e.1 ≠ "Type") :
    filterType st.output_map = [⟨"type", Val.s "process"⟩] ∧
    st.output_map.getLast? = some ⟨"type", Val.s "process"⟩ := by
  unfold convert at hok
  split at hok
  · rename_i st1 hrun
    obtain ⟨r1, r2⟩ := run_map_spec input initSt st1 hrun
    have hany : (input.any (fun e => decide (e.1 = "Type"))) = false := by
      rw [List.any_eq_false]
      intro e he
      simp [hnt e he]
    have hht : st1.has_type = false := by
      rw [r1, hany]
      simp [initSt]
    rw [if_pos (by simp [hht])] at hok
    have h2 := Except.ok.inj hok; subst h2
    have hto : typeOut input = [] := typeOut_eq_nil input hnt
    constructor
    · show filterType (st1.output_map ++ [⟨"type", Val.s "process"⟩]) = _
      rw [filterType_append, r2, hto]
      simp [initSt, filterType]
    · exact List.getLast?_concat _
  · exact Except.noConfusion hok

/-- Witness for C8 at the concrete input `[ExecStart=/bin/foo]`. -/
theorem C8_default_type_fallback_witness :
    filterType (ConvSt.mk [⟨"command", Val.s "/bin/foo"⟩, ⟨"type", Val.s "process"⟩]
        [] [] 0 false).output_map = [⟨"type", Val.s "process"⟩] ∧
    (ConvSt.mk [⟨"command", Val.s "/bin/foo"⟩, ⟨"type", Val.s "process"⟩]
        [] [] 0 false).output_map.getLast? = some ⟨"type", Val.s "process"⟩ :=
  C8_default_type_fallback [("ExecStart", "/bin/foo")]
    (ConvSt.mk [⟨"command", Val.s "/bin/foo"⟩, ⟨"type", Val.s "process"⟩] [] [] 0 false)
    (by decide) (by decide)

/-- C9: an input directive whose key is outside `systemd_ref_map` appends
no output directive, leaves the whole mapper state (output, comments,
pidfile status, type flag) unchanged, and adds exactly one warning that
references that key. -/
theorem C9_unknown_key_warning_only (st : ConvSt) (k v : String)
    (hmem : ¬ k ∈ systemd_ref_map) :
    ∃ st2, step st k v = .ok st2 ∧
      st2.output_map = st.output_map ∧
      st2.comments = st.comments ∧
      st2.is_pidfile = st.is_pidfile ∧
      st2.has_type = st.has_type ∧
      st2.warnings = st.warnings ++ [Warn.unknownKey k] :=
  ⟨_, step_unknown st k v hmem, rfl, rfl, rfl, rfl, rfl⟩

/-- Witness for C9 at the concrete unknown key "Foo". -/
theorem C9_unknown_key_warning_only_witness :
    ¬ "Foo" ∈ systemd_ref_map ∧
    (∃ st2, step initSt "Foo" "bar" = .ok st2 ∧
      st2.output_map = initSt.output_map ∧
      st2.comments = initSt.comments ∧
      st2.is_pidfile = initSt.is_pidfile ∧
      st2.has_type = initSt.has_type ∧
      st2.warnings = initSt.warnings ++ [Warn.unknownKey "Foo"]) :=
  ⟨by decide, C9_unknown_key_warning_only initSt "Foo" "bar" (by decide)⟩

/-- C10: an input sequence whose only `Type` directive carries a value
outside {simple, exec, forking, oneshot, notify, dbus} emits no type
directive for that entry, still marks the type as declared (suppressing
the default fallback), and so the final output contains no type directive
at all. -/
theorem C10_unknown_type_value_suppresses_fallback
    (pre post : List (String × String)) (v : String) (st : ConvSt)
    (hv1 : v ≠ "simple") (hv2 : v ≠ "exec") (hv3 : v ≠ "forking")
    (hv4 : v ≠ "oneshot") (hv5 : v ≠ "notify") (hv6 : v ≠ "dbus")
    (hpre : ∀ e ∈ pre, e.1 ≠ "Type") (hpost : ∀ e ∈ post, e.1 ≠ "Type")
    (hok : convert (pre ++ ("Type", v) :: post) = .ok st) :
    filterType st.output_map = [] := by
  unfold convert at hok
  split at hok
  · rename_i st1 hrun
    obtain ⟨r1, r2⟩ := run_map_spec _ initSt st1 hrun
    have hany : ((pre ++ ("Type", v) :: post).any (fun e => decide (e.1 = "Type"))) = true := by
      simp
    have hht : st1.has_type = true := by
      rw [r1, hany]
      simp
    rw [if_neg (by simp [hht])] at hok
    have h2 := Except.ok.inj hok; subst h2
    have hto : typeOut (pre ++ ("Type", v) :: post) = [] := by
      rw [typeOut_append, typeOut_cons, typeOut_eq_nil pre hpre, typeOut_eq_nil post hpost]
      simp [typeEmitOne, typeEmitVal, hv1, hv2, hv3, hv4, hv5, hv6]
    rw [r2, hto]
    simp [initSt, filterType]
  · exact Except.noConfusion hok

/-- Witness for C10 at the concrete input `[Type=idle]`. -/
theorem C10_unknown_type_value_suppresses_fallback_witness :
    filterType (ConvSt.mk [] [] [] 0 true).output_map = [] :=
  C10_unknown_type_value_suppresses_fallback [] [] "idle" (ConvSt.mk [] [] [] 0 true)
    (by decide) (by decide) (by decide) (by decide) (by decide) (by decide)
    (by decide) (by decide) (by decide)

end UnitToSrv
